import Mathlib

/-!
Verification of the interactive airline-dashboard program (`src/main.py`).

The program loads a flight-record table, and a single callback `make_graph`
filters it by the selected year, runs one of two aggregators
(`performance` or `delays`, each a handful of pandas group-by reductions),
and builds five plotly chart objects.

The shallow embedding below models the table as a `List Row`, the pandas
`groupby(...).sum()/.mean().reset_index()` idiom as explicit key-dedup plus
filter-and-reduce, and the chart objects as a `Figure` inductive recording
the chart kind, source table and bindings.  Numeric columns are modelled
as rationals.
-/

/-- One flight-leg record of the loaded dataset, with the columns the
program reads (`Year`, `Month`, `Reporting_Airline`, `OriginState`,
`DestState`, `Flights`, `AirTime`, `CancellationCode`,
`DivAirportLandings` and the five delay-minute columns). -/
structure Row where
  year : Int
  month : Int
  reportingAirline : String
  originState : String
  destState : String
  flights : ℚ
  airTime : ℚ
  cancellationCode : String
  divAirportLandings : ℚ
  carrierDelay : ℚ
  weatherDelay : ℚ
  nasDelay : ℚ
  securityDelay : ℚ
  lateAircraftDelay : ℚ
deriving DecidableEq

/-- The distinct group keys of `df` under key function `k`, in first-occurrence
order: the index produced by pandas `groupby(k)` (every key combination
present in `df`, each once). -/
def groupKeys {κ : Type} [DecidableEq κ] (df : List Row) (k : Row → κ) : List κ :=
  (df.map k).dedup

/-- The rows of `df` whose key under `k` equals `g` (one pandas group). -/
def groupRows {κ : Type} [DecidableEq κ] (df : List Row) (k : Row → κ) (g : κ) : List Row :=
  df.filter fun r => decide (k r = g)

/-- `df.groupby(k)[v].sum().reset_index()`: one output row per distinct key,
holding the sum of column `v` over that key's rows. -/
def groupbySum {κ : Type} [DecidableEq κ] (df : List Row) (k : Row → κ) (v : Row → ℚ) :
    List (κ × ℚ) :=
  (groupKeys df k).map fun g => (g, ((groupRows df k g).map v).sum)

/-- Arithmetic mean of a list of rationals (`0` on the empty list, which
never arises for a pandas group: groups are nonempty by construction). -/
def listMean (xs : List ℚ) : ℚ :=
  xs.sum / xs.length

/-- `df.groupby(k)[v].mean().reset_index()`: one output row per distinct key,
holding the mean of column `v` over that key's rows. -/
def groupbyMean {κ : Type} [DecidableEq κ] (df : List Row) (k : Row → κ) (v : Row → ℚ) :
    List (κ × ℚ) :=
  (groupKeys df k).map fun g => (g, listMean ((groupRows df k g).map v))

/-- The five derived tables computed by `performance` (source lines 23-35),
named after the source variables. -/
structure PerfTables where
  barchart_data : List ((Int × String) × ℚ)
  linechart_data : List ((Int × String) × ℚ)
  diversion_data : List Row
  mapchart_data : List (String × ℚ)
  treemap_data : List ((String × String) × ℚ)
deriving DecidableEq

/-- `performance(df)` from `src/main.py` lines 23-35: cancellation counts by
(Month, CancellationCode), mean AirTime by (Month, Reporting_Airline), the
rows with `DivAirportLandings != 0.0`, flights by OriginState, and flights
by (DestState, Reporting_Airline). -/
def performance (df : List Row) : PerfTables where
  barchart_data := groupbySum df (fun r => (r.month, r.cancellationCode)) Row.flights
  linechart_data := groupbyMean df (fun r => (r.month, r.reportingAirline)) Row.airTime
  diversion_data := df.filter fun r => decide (r.divAirportLandings ≠ 0)
  mapchart_data := groupbySum df Row.originState Row.flights
  treemap_data := groupbySum df (fun r => (r.destState, r.reportingAirline)) Row.flights

/-- The five derived tables computed by `delays` (source lines 38-50),
named after the source variables. -/
structure DelayTables where
  carrier : List ((Int × String) × ℚ)
  weather : List ((Int × String) × ℚ)
  NAS : List ((Int × String) × ℚ)
  security : List ((Int × String) × ℚ)
  delay : List ((Int × String) × ℚ)
deriving DecidableEq

/-- `delays(df)` from `src/main.py` lines 38-50: the mean of each of the five
delay-cause columns grouped by (Month, Reporting_Airline). -/
def delays (df : List Row) : DelayTables where
  carrier := groupbyMean df (fun r => (r.month, r.reportingAirline)) Row.carrierDelay
  weather := groupbyMean df (fun r => (r.month, r.reportingAirline)) Row.weatherDelay
  NAS := groupbyMean df (fun r => (r.month, r.reportingAirline)) Row.nasDelay
  security := groupbyMean df (fun r => (r.month, r.reportingAirline)) Row.securityDelay
  delay := groupbyMean df (fun r => (r.month, r.reportingAirline)) Row.lateAircraftDelay

/-- A chart object as built by the `px.*` calls in the callback: the chart
kind, the derived table it is built from, and its axis/colour/title
bindings.  `dcc.Graph` wrapping is the identity for our purposes. -/
inductive Figure where
  | bar (data : List ((Int × String) × ℚ)) (x y color title : String)
  | line (data : List ((Int × String) × ℚ)) (x y color title : String)
  | pie (data : List Row) (values names title : String)
  | choropleth (data : List (String × ℚ)) (locations color title : String)
  | treemap (data : List ((String × String) × ℚ)) (values color title : String)
deriving DecidableEq

/-- The five figures of the `chart == 'OPT1'` branch of `make_graph`
(source lines 123-161), in the order the callback returns them:
treemap, pie, choropleth, bar, line. -/
def performanceCharts (df : List Row) : List Figure :=
  [ Figure.treemap (performance df).treemap_data "Flights" "Flights"
      "Flight count by airline to destination state"
  , Figure.pie (performance df).diversion_data "Flights" "Reporting_Airline"
      "% of flights by reporting airline"
  , Figure.choropleth (performance df).mapchart_data "OriginState" "Flights"
      "Number of flights from origin state"
  , Figure.bar (performance df).barchart_data "Month" "Flights" "CancellationCode"
      "Monthly Flight Cancellation"
  , Figure.line (performance df).linechart_data "Month" "AirTime" "Reporting_Airline"
      "Average monthly flight time (minutes) by airline" ]

/-- The five figures of the `else` branch of `make_graph`
(source lines 162-186): one line chart per delay-cause table. -/
def delayCharts (df : List Row) : List Figure :=
  [ Figure.line (delays df).carrier "Month" "CarrierDelay" "Reporting_Airline"
      "Average carrrier delay time (minutes) by airline"
  , Figure.line (delays df).weather "Month" "WeatherDelay" "Reporting_Airline"
      "Average weather delay time (minutes) by airline"
  , Figure.line (delays df).NAS "Month" "NASDelay" "Reporting_Airline"
      "Average NAS delay time (minutes) by airline"
  , Figure.line (delays df).security "Month" "SecurityDelay" "Reporting_Airline"
      "Average security delay time (minutes) by airline"
  , Figure.line (delays df).delay "Month" "LateAircraftDelay" "Reporting_Airline"
      "Average late aircraft delay time (minutes) by airline" ]

/-- The year filter `flight_data[flight_data['Year'] == int(year)]`
(source line 121). -/
def yearFiltered (flight_data : List Row) (y : Int) : List Row :=
  flight_data.filter fun r => decide (r.year = y)

/-- The callback `make_graph(chart, year, children1, children2, c3, c4, c5)`
(source lines 119-186).  The global `flight_data` is passed explicitly as
the last argument.  The dropdown values arrive as `Option`s (`none` when the
selector is unset); `int(year)` on an unset year raises `TypeError`, which
we model as `Except.error`.  The five `State` arguments (the prior contents
of `plot1..plot5`) are accepted, as in the source, and never read. -/
def make_graph (chart : Option String) (year : Option Int)
    (children1 children2 c3 c4 c5 : List Figure) (flight_data : List Row) :
    Except String (List Figure) :=
  match year with
  | none => Except.error "TypeError: int() argument must be a string or a number, not NoneType"
  | some y =>
    let df := yearFiltered flight_data y
    if chart = some "OPT1" then
      Except.ok (performanceCharts df)
    else
      Except.ok (delayCharts df)

/-! ### Basic facts about the group-by embedding -/

lemma mem_groupKeys {κ : Type} [DecidableEq κ] {df : List Row} {k : Row → κ} {g : κ} :
    g ∈ groupKeys df k ↔ ∃ r ∈ df, k r = g := by
  simp [groupKeys, List.mem_dedup, List.mem_map]

lemma nodup_groupKeys {κ : Type} [DecidableEq κ] (df : List Row) (k : Row → κ) :
    (groupKeys df k).Nodup :=
  List.nodup_dedup _

lemma mem_groupRows {κ : Type} [DecidableEq κ] {df : List Row} {k : Row → κ} {g : κ} {r : Row} :
    r ∈ groupRows df k g ↔ r ∈ df ∧ k r = g := by
  simp [groupRows, List.mem_filter]

lemma groupRows_ne_nil {κ : Type} [DecidableEq κ] {df : List Row} {k : Row → κ} {g : κ}
    (h : g ∈ groupKeys df k) : groupRows df k g ≠ [] := by
  rcases mem_groupKeys.mp h with ⟨r, hr, hk⟩
  intro hnil
  have hmem : r ∈ groupRows df k g := mem_groupRows.mpr ⟨hr, hk⟩
  rw [hnil] at hmem
  exact List.not_mem_nil r hmem

lemma mem_groupbySum {κ : Type} [DecidableEq κ] {df : List Row} {k : Row → κ} {v : Row → ℚ}
    {g : κ} {s : ℚ} :
    (g, s) ∈ groupbySum df k v ↔
      g ∈ groupKeys df k ∧ s = ((groupRows df k g).map v).sum := by
  constructor
  · intro h
    rcases List.mem_map.mp h with ⟨a, ha, hEq⟩
    rw [Prod.mk.injEq] at hEq
    obtain ⟨h1, h2⟩ := hEq
    subst h1
    exact ⟨ha, h2.symm⟩
  · rintro ⟨hg, rfl⟩
    exact List.mem_map.mpr ⟨g, hg, rfl⟩

lemma mem_groupbyMean {κ : Type} [DecidableEq κ] {df : List Row} {k : Row → κ} {v : Row → ℚ}
    {g : κ} {m : ℚ} :
    (g, m) ∈ groupbyMean df k v ↔
      g ∈ groupKeys df k ∧ m = listMean ((groupRows df k g).map v) := by
  constructor
  · intro h
    rcases List.mem_map.mp h with ⟨a, ha, hEq⟩
    rw [Prod.mk.injEq] at hEq
    obtain ⟨h1, h2⟩ := hEq
    subst h1
    exact ⟨ha, h2.symm⟩
  · rintro ⟨hg, rfl⟩
    exact List.mem_map.mpr ⟨g, hg, rfl⟩

lemma groupbySum_char {κ : Type} [DecidableEq κ] (df : List Row) (k : Row → κ) (v : Row → ℚ)
    (g : κ) (s : ℚ) :
    (g, s) ∈ groupbySum df k v ↔
      (∃ r ∈ df, k r = g) ∧ s = ((groupRows df k g).map v).sum := by
  rw [mem_groupbySum, mem_groupKeys]

lemma groupbyMean_char {κ : Type} [DecidableEq κ] (df : List Row) (k : Row → κ) (v : Row → ℚ)
    (g : κ) (m : ℚ) :
    (g, m) ∈ groupbyMean df k v ↔
      (∃ r ∈ df, k r = g) ∧ m = listMean ((groupRows df k g).map v) := by
  rw [mem_groupbyMean, mem_groupKeys]

lemma map_fst_groupbySum {κ : Type} [DecidableEq κ] (df : List Row) (k : Row → κ)
    (v : Row → ℚ) : (groupbySum df k v).map Prod.fst = groupKeys df k := by
  have hid : Prod.fst ∘ (fun g => (g, ((groupRows df k g).map v).sum)) = @id κ := rfl
  rw [groupbySum, List.map_map, hid, List.map_id]

lemma map_fst_groupbyMean {κ : Type} [DecidableEq κ] (df : List Row) (k : Row → κ)
    (v : Row → ℚ) : (groupbyMean df k v).map Prod.fst = groupKeys df k := by
  have hid : Prod.fst ∘ (fun g => (g, listMean ((groupRows df k g).map v))) = @id κ := rfl
  rw [groupbyMean, List.map_map, hid, List.map_id]

lemma count_nodup {α : Type} [DecidableEq α] {l : List α} (d : l.Nodup) (a : α) :
    l.count a = if a ∈ l then 1 else 0 := by
  by_cases h : a ∈ l
  · rw [if_pos h]
    exact List.count_eq_one_of_mem d h
  · rw [if_neg h]
    exact List.count_eq_zero.mpr h

lemma count_groupKeys {κ : Type} [DecidableEq κ] (df : List Row) (k : Row → κ) (g : κ) :
    (groupKeys df k).count g = if ∃ r ∈ df, k r = g then 1 else 0 := by
  rw [count_nodup (nodup_groupKeys df k) g]
  by_cases h : ∃ r ∈ df, k r = g
  · rw [if_pos (mem_groupKeys.mpr h), if_pos h]
  · rw [if_neg (fun hm => h (mem_groupKeys.mp hm)), if_neg h]

lemma count_key_groupbySum {κ : Type} [DecidableEq κ] (df : List Row) (k : Row → κ)
    (v : Row → ℚ) (g : κ) :
    ((groupbySum df k v).map Prod.fst).count g = if ∃ r ∈ df, k r = g then 1 else 0 := by
  rw [map_fst_groupbySum, count_groupKeys]

lemma count_key_groupbyMean {κ : Type} [DecidableEq κ] (df : List Row) (k : Row → κ)
    (v : Row → ℚ) (g : κ) :
    ((groupbyMean df k v).map Prod.fst).count g = if ∃ r ∈ df, k r = g then 1 else 0 := by
  rw [map_fst_groupbyMean, count_groupKeys]

lemma sum_groupRows_le {κ : Type} [DecidableEq κ] (df : List Row) (k : Row → κ) (g : κ)
    (v : Row → ℚ) (h : ∀ r ∈ df, 0 ≤ v r) :
    ((groupRows df k g).map v).sum ≤ (df.map v).sum := by
  apply List.Sublist.sum_le_sum
  · exact List.Sublist.map v (List.filter_sublist df)
  · intro x hx
    rcases List.mem_map.mp hx with ⟨r, hr, rfl⟩
    exact h r hr

lemma groupbySum_val_le {κ : Type} [DecidableEq κ] {df : List Row} {k : Row → κ} {v : Row → ℚ}
    (h : ∀ r ∈ df, 0 ≤ v r) {p : κ × ℚ} (hp : p ∈ groupbySum df k v) :
    p.2 ≤ (df.map v).sum := by
  rcases List.mem_map.mp hp with ⟨g, hg, rfl⟩
  exact sum_groupRows_le df k g v h

/-! ### Minimum, maximum and mean of a column -/

/-- Minimum of a list of rationals (`0` on the empty list). -/
def listMin : List ℚ → ℚ
  | [] => 0
  | [x] => x
  | x :: y :: xs => min x (listMin (y :: xs))

/-- Maximum of a list of rationals (`0` on the empty list). -/
def listMax : List ℚ → ℚ
  | [] => 0
  | [x] => x
  | x :: y :: xs => max x (listMax (y :: xs))

lemma sum_le_length_mul_listMax (xs : List ℚ) (h : xs ≠ []) :
    xs.sum ≤ (xs.length : ℚ) * listMax xs := by
  induction xs with
  | nil => exact absurd rfl h
  | cons x ys ih =>
    cases ys with
    | nil => simp [listMax]
    | cons y zs =>
      have h1 := ih (by simp)
      have h2 : listMax (y :: zs) ≤ listMax (x :: y :: zs) := by
        rw [listMax]
        exact le_max_right _ _
      have h3 : x ≤ listMax (x :: y :: zs) := by
        rw [listMax]
        exact le_max_left _ _
      have hlen : (0 : ℚ) ≤ ((y :: zs).length : ℚ) := by positivity
      have h4 : ((y :: zs).length : ℚ) * listMax (y :: zs) ≤
          ((y :: zs).length : ℚ) * listMax (x :: y :: zs) :=
        mul_le_mul_of_nonneg_left h2 hlen
      have h5 : (x :: y :: zs).sum = x + (y :: zs).sum := List.sum_cons ..
      have h6 : ((x :: y :: zs).length : ℚ) = ((y :: zs).length : ℚ) + 1 := by
        push_cast [List.length_cons]
        ring
      rw [h5, h6]
      linarith

lemma length_mul_listMin_le_sum (xs : List ℚ) (h : xs ≠ []) :
    (xs.length : ℚ) * listMin xs ≤ xs.sum := by
  induction xs with
  | nil => exact absurd rfl h
  | cons x ys ih =>
    cases ys with
    | nil => simp [listMin]
    | cons y zs =>
      have h1 := ih (by simp)
      have h2 : listMin (x :: y :: zs) ≤ listMin (y :: zs) := by
        rw [listMin]
        exact min_le_right _ _
      have h3 : listMin (x :: y :: zs) ≤ x := by
        rw [listMin]
        exact min_le_left _ _
      have hlen : (0 : ℚ) ≤ ((y :: zs).length : ℚ) := by positivity
      have h4 : ((y :: zs).length : ℚ) * listMin (x :: y :: zs) ≤
          ((y :: zs).length : ℚ) * listMin (y :: zs) :=
        mul_le_mul_of_nonneg_left h2 hlen
      have h5 : (x :: y :: zs).sum = x + (y :: zs).sum := List.sum_cons ..
      have h6 : ((x :: y :: zs).length : ℚ) = ((y :: zs).length : ℚ) + 1 := by
        push_cast [List.length_cons]
        ring
      rw [h5, h6]
      linarith

lemma listMean_le_listMax (xs : List ℚ) (h : xs ≠ []) : listMean xs ≤ listMax xs := by
  have hlen : (0 : ℚ) < (xs.length : ℚ) := by
    have := List.length_pos.mpr h
    exact_mod_cast this
  rw [listMean, div_le_iff₀ hlen, mul_comm]
  exact sum_le_length_mul_listMax xs h

lemma listMin_le_listMean (xs : List ℚ) (h : xs ≠ []) : listMin xs ≤ listMean xs := by
  have hlen : (0 : ℚ) < (xs.length : ℚ) := by
    have := List.length_pos.mpr h
    exact_mod_cast this
  rw [listMean, le_div_iff₀ hlen, mul_comm]
  exact length_mul_listMin_le_sum xs h

lemma groupbyMean_val_between {κ : Type} [DecidableEq κ] {df : List Row} {k : Row → κ}
    {v : Row → ℚ} {p : κ × ℚ} (hp : p ∈ groupbyMean df k v) :
    listMin ((groupRows df k p.1).map v) ≤ p.2 ∧
    p.2 ≤ listMax ((groupRows df k p.1).map v) := by
  rcases List.mem_map.mp hp with ⟨g, hg, rfl⟩
  have hne : (groupRows df k g).map v ≠ [] := by
    intro hnil
    exact groupRows_ne_nil hg (List.map_eq_nil_iff.mp hnil)
  exact ⟨listMin_le_listMean _ hne, listMean_le_listMax _ hne⟩

/-! ### Concrete sample data -/

/-- A concrete flight record used to instantiate the theorems below. -/
def sampleRow : Row where
  year := 2019
  month := 1
  reportingAirline := "AA"
  originState := "CA"
  destState := "TX"
  flights := 1
  airTime := 100
  cancellationCode := "A"
  divAirportLandings := 0
  carrierDelay := 3
  weatherDelay := 0
  nasDelay := 2
  securityDelay := 0
  lateAircraftDelay := 5

/-- A second 2019 record in the same (Month, Reporting_Airline) group as
`sampleRow`, with a diverted landing. -/
def sampleRow2 : Row := { sampleRow with
  airTime := 50
  cancellationCode := "B"
  divAirportLandings := 2
  carrierDelay := 1
  lateAircraftDelay := 1 }

/-- A 2018 record for a different airline and month. -/
def sampleRow3 : Row := { sampleRow with
  year := 2018
  month := 2
  reportingAirline := "UA"
  airTime := 60 }

/-- A small concrete dataset. -/
def sampleData : List Row := [sampleRow, sampleRow2, sampleRow3]

/-! ### Claim theorems -/

/-- Claim C1: for every year-filtered table `df`, `performance` returns exactly
five derived tables: (1) flights summed by (Month, CancellationCode), (2) mean
AirTime by (Month, Reporting_Airline), (3) the subset of rows of `df` whose
DivAirportLandings is nonzero, (4) flights summed by OriginState, and
(5) flights summed by (DestState, Reporting_Airline).  Each group-by table has
an entry for a key exactly when the key occurs in `df`, and that entry holds
the sum (resp. mean) of the reduced column over the key's rows. -/
theorem performance_five_tables (df : List Row) :
    (∀ g s, ((g, s) ∈ (performance df).barchart_data ↔
      (∃ r ∈ df, (r.month, r.cancellationCode) = g) ∧
      s = ((groupRows df (fun r => (r.month, r.cancellationCode)) g).map Row.flights).sum)) ∧
    (∀ g m, ((g, m) ∈ (performance df).linechart_data ↔
      (∃ r ∈ df, (r.month, r.reportingAirline) = g) ∧
      m = listMean ((groupRows df (fun r => (r.month, r.reportingAirline)) g).map
        Row.airTime))) ∧
    (∀ r : Row, (r ∈ (performance df).diversion_data ↔
      r ∈ df ∧ r.divAirportLandings ≠ 0)) ∧
    (∀ g s, ((g, s) ∈ (performance df).mapchart_data ↔
      (∃ r ∈ df, r.originState = g) ∧
      s = ((groupRows df Row.originState g).map Row.flights).sum)) ∧
    (∀ g s, ((g, s) ∈ (performance df).treemap_data ↔
      (∃ r ∈ df, (r.destState, r.reportingAirline) = g) ∧
      s = ((groupRows df (fun r => (r.destState, r.reportingAirline)) g).map
        Row.flights).sum)) := by
  refine ⟨?_, ?_, ?_, ?_, ?_⟩
  · intro g s
    exact groupbySum_char df _ Row.flights g s
  · intro g m
    exact groupbyMean_char df _ Row.airTime g m
  · intro r
    simp [performance, List.mem_filter]
  · intro g s
    exact groupbySum_char df Row.originState Row.flights g s
  · intro g s
    exact groupbySum_char df _ Row.flights g s

unseal Rat.add Rat.mul Rat.inv in
/-- Witness for C1 at concrete data: the (Month 1, code "A") cancellation
group of `sampleData` sums to 1, and `sampleRow2` is in the diversion table. -/
theorem performance_five_tables_witness :
    ((((1 : Int), "A"), (1 : ℚ)) ∈ (performance sampleData).barchart_data) ∧
    sampleRow2 ∈ (performance sampleData).diversion_data :=
  ⟨((performance_five_tables sampleData).1 ((1 : Int), "A") 1).mpr (by decide),
   ((performance_five_tables sampleData).2.2.1 sampleRow2).mpr (by decide)⟩

/-- Claim C2: for every year-filtered table `df`, `delays` returns exactly five
derived tables, the i-th being the mean of the i-th delay-cause column
(CarrierDelay, WeatherDelay, NASDelay, SecurityDelay, LateAircraftDelay)
grouped by (Month, Reporting_Airline). -/
theorem delays_five_tables (df : List Row) :
    (∀ g m, ((g, m) ∈ (delays df).carrier ↔
      (∃ r ∈ df, (r.month, r.reportingAirline) = g) ∧
      m = listMean ((groupRows df (fun r => (r.month, r.reportingAirline)) g).map
        Row.carrierDelay))) ∧
    (∀ g m, ((g, m) ∈ (delays df).weather ↔
      (∃ r ∈ df, (r.month, r.reportingAirline) = g) ∧
      m = listMean ((groupRows df (fun r => (r.month, r.reportingAirline)) g).map
        Row.weatherDelay))) ∧
    (∀ g m, ((g, m) ∈ (delays df).NAS ↔
      (∃ r ∈ df, (r.month, r.reportingAirline) = g) ∧
      m = listMean ((groupRows df (fun r => (r.month, r.reportingAirline)) g).map
        Row.nasDelay))) ∧
    (∀ g m, ((g, m) ∈ (delays df).security ↔
      (∃ r ∈ df, (r.month, r.reportingAirline) = g) ∧
      m = listMean ((groupRows df (fun r => (r.month, r.reportingAirline)) g).map
        Row.securityDelay))) ∧
    (∀ g m, ((g, m) ∈ (delays df).delay ↔
      (∃ r ∈ df, (r.month, r.reportingAirline) = g) ∧
      m = listMean ((groupRows df (fun r => (r.month, r.reportingAirline)) g).map
        Row.lateAircraftDelay))) := by
  refine ⟨?_, ?_, ?_, ?_, ?_⟩ <;> intro g m
  · exact groupbyMean_char df _ Row.carrierDelay g m
  · exact groupbyMean_char df _ Row.weatherDelay g m
  · exact groupbyMean_char df _ Row.nasDelay g m
  · exact groupbyMean_char df _ Row.securityDelay g m
  · exact groupbyMean_char df _ Row.lateAircraftDelay g m

unseal Rat.add Rat.mul Rat.inv in
/-- Witness for C2 at concrete data: the (Month 1, airline "AA") carrier-delay
group of `sampleData` has mean (3 + 1) / 2 = 2. -/
theorem delays_five_tables_witness :
    (((1 : Int), "AA"), (2 : ℚ)) ∈ (delays sampleData).carrier :=
  ((delays_five_tables sampleData).1 ((1 : Int), "AA") 2).mpr (by decide)

/-- Claim C3 (evaluation at the failing input): when the year selector is
unset and a report type is chosen, the callback does NOT return a
"no selection" state — line 121 evaluates `int(year)` on `None` and raises
`TypeError`, which the embedding records as an `Except.error`.  This holds
for every dataset and every prior chart state. -/
theorem make_graph_unset_year_raises (fd : List Row) (a1 a2 a3 a4 a5 : List Figure) :
    make_graph (some "OPT1") none a1 a2 a3 a4 a5 fd =
      Except.error "TypeError: int() argument must be a string or a number, not NoneType" :=
  rfl

/-- Claim C4: for every year Y in the supported range 2005-2020, the
year-filtered view contains exactly the rows of the dataset whose Year
equals Y (with multiplicity), and every row in it has Year = Y. -/
theorem yearFiltered_exact (fd : List Row) (Y : Int) (h1 : 2005 ≤ Y) (h2 : Y ≤ 2020) :
    (∀ r : Row, (yearFiltered fd Y).count r = if r.year = Y then fd.count r else 0) ∧
    (∀ r ∈ yearFiltered fd Y, r.year = Y) := by
  constructor
  · intro r
    by_cases hy : r.year = Y
    · rw [if_pos hy]
      exact List.count_filter (by simp [hy])
    · rw [if_neg hy]
      rw [List.count_eq_zero]
      intro hm
      exact hy (by simpa using (List.mem_filter.mp hm).2)
  · intro r hr
    simpa using (List.mem_filter.mp hr).2

/-- Witness for C4: filtering `sampleData` by 2019 keeps `sampleRow` with
its original multiplicity. -/
theorem yearFiltered_exact_witness :
    (yearFiltered sampleData 2019).count sampleRow =
      if sampleRow.year = 2019 then sampleData.count sampleRow else 0 :=
  (yearFiltered_exact sampleData 2019 (by decide) (by decide)).1 sampleRow

/-- Claim C5: every aggregate table produced by `performance` and `delays`
contains exactly one row per unique combination of its grouping key(s)
occurring in the input view — the key column of each table has no duplicates
and holds a key exactly when the combination occurs in the view — and the
diversion table keeps exactly the rows whose DivAirportLandings is not 0. -/
theorem aggregate_one_row_per_key (df : List Row) :
    (((performance df).barchart_data.map Prod.fst).Nodup ∧
      ∀ g, (g ∈ (performance df).barchart_data.map Prod.fst ↔
        ∃ r ∈ df, (r.month, r.cancellationCode) = g)) ∧
    (((performance df).linechart_data.map Prod.fst).Nodup ∧
      ∀ g, (g ∈ (performance df).linechart_data.map Prod.fst ↔
        ∃ r ∈ df, (r.month, r.reportingAirline) = g)) ∧
    (((performance df).mapchart_data.map Prod.fst).Nodup ∧
      ∀ g, (g ∈ (performance df).mapchart_data.map Prod.fst ↔
        ∃ r ∈ df, r.originState = g)) ∧
    (((performance df).treemap_data.map Prod.fst).Nodup ∧
      ∀ g, (g ∈ (performance df).treemap_data.map Prod.fst ↔
        ∃ r ∈ df, (r.destState, r.reportingAirline) = g)) ∧
    (((delays df).carrier.map Prod.fst).Nodup ∧
      ∀ g, (g ∈ (delays df).carrier.map Prod.fst ↔
        ∃ r ∈ df, (r.month, r.reportingAirline) = g)) ∧
    (((delays df).weather.map Prod.fst).Nodup ∧
      ∀ g, (g ∈ (delays df).weather.map Prod.fst ↔
        ∃ r ∈ df, (r.month, r.reportingAirline) = g)) ∧
    (((delays df).NAS.map Prod.fst).Nodup ∧
      ∀ g, (g ∈ (delays df).NAS.map Prod.fst ↔
        ∃ r ∈ df, (r.month, r.reportingAirline) = g)) ∧
    (((delays df).security.map Prod.fst).Nodup ∧
      ∀ g, (g ∈ (delays df).security.map Prod.fst ↔
        ∃ r ∈ df, (r.month, r.reportingAirline) = g)) ∧
    (((delays df).delay.map Prod.fst).Nodup ∧
      ∀ g, (g ∈ (delays df).delay.map Prod.fst ↔
        ∃ r ∈ df, (r.month, r.reportingAirline) = g)) ∧
    (∀ r : Row, (performance df).diversion_data.count r =
      if r.divAirportLandings ≠ 0 then df.count r else 0) := by
  refine ⟨?_, ?_, ?_, ?_, ?_, ?_, ?_, ?_, ?_, ?_⟩
  · rw [show (performance df).barchart_data =
      groupbySum df (fun r => (r.month, r.cancellationCode)) Row.flights from rfl,
      map_fst_groupbySum]
    exact ⟨nodup_groupKeys df _, fun g => mem_groupKeys⟩
  · rw [show (performance df).linechart_data =
      groupbyMean df (fun r => (r.month, r.reportingAirline)) Row.airTime from rfl,
      map_fst_groupbyMean]
    exact ⟨nodup_groupKeys df _, fun g => mem_groupKeys⟩
  · rw [show (performance df).mapchart_data =
      groupbySum df Row.originState Row.flights from rfl, map_fst_groupbySum]
    exact ⟨nodup_groupKeys df _, fun g => mem_groupKeys⟩
  · rw [show (performance df).treemap_data =
      groupbySum df (fun r => (r.destState, r.reportingAirline)) Row.flights from rfl,
      map_fst_groupbySum]
    exact ⟨nodup_groupKeys df _, fun g => mem_groupKeys⟩
  · rw [show (delays df).carrier =
      groupbyMean df (fun r => (r.month, r.reportingAirline)) Row.carrierDelay from rfl,
      map_fst_groupbyMean]
    exact ⟨nodup_groupKeys df _, fun g => mem_groupKeys⟩
  · rw [show (delays df).weather =
      groupbyMean df (fun r => (r.month, r.reportingAirline)) Row.weatherDelay from rfl,
      map_fst_groupbyMean]
    exact ⟨nodup_groupKeys df _, fun g => mem_groupKeys⟩
  · rw [show (delays df).NAS =
      groupbyMean df (fun r => (r.month, r.reportingAirline)) Row.nasDelay from rfl,
      map_fst_groupbyMean]
    exact ⟨nodup_groupKeys df _, fun g => mem_groupKeys⟩
  · rw [show (delays df).security =
      groupbyMean df (fun r => (r.month, r.reportingAirline)) Row.securityDelay from rfl,
      map_fst_groupbyMean]
    exact ⟨nodup_groupKeys df _, fun g => mem_groupKeys⟩
  · rw [show (delays df).delay =
      groupbyMean df (fun r => (r.month, r.reportingAirline)) Row.lateAircraftDelay from rfl,
      map_fst_groupbyMean]
    exact ⟨nodup_groupKeys df _, fun g => mem_groupKeys⟩
  · intro r
    by_cases hd : r.divAirportLandings ≠ 0
    · rw [if_pos hd]
      exact List.count_filter (by simpa using hd)
    · rw [if_neg hd]
      rw [List.count_eq_zero]
      intro hm
      have := (List.mem_filter.mp hm).2
      exact hd (by simpa using this)

/-- Witness for C5: the key column of the cancellation table of `sampleData`
has no duplicates and contains (Month 1, code "A"). -/
theorem aggregate_one_row_per_key_witness :
    ((performance sampleData).barchart_data.map Prod.fst).Nodup ∧
    (((1 : Int), "A") ∈ (performance sampleData).barchart_data.map Prod.fst ↔
      ∃ r ∈ sampleData, (r.month, r.cancellationCode) = ((1 : Int), "A")) :=
  ⟨(aggregate_one_row_per_key sampleData).1.1,
   (aggregate_one_row_per_key sampleData).1.2 ((1 : Int), "A")⟩

/-- Claim C6: both aggregators are idempotent and deterministic — two runs on
the same year-filtered view yield identical derived tables.  The embedding of
both aggregators is a pure function of its input (pandas `groupby` reads and
never mutates its argument), so equal inputs give equal outputs. -/
theorem aggregators_deterministic (df1 df2 : List Row) (h : df1 = df2) :
    performance df1 = performance df2 ∧ delays df1 = delays df2 := by
  subst h
  exact ⟨rfl, rfl⟩

/-- Witness for C6: two runs on `sampleData` agree. -/
theorem aggregators_deterministic_witness :
    performance sampleData = performance sampleData ∧
    delays sampleData = delays sampleData :=
  aggregators_deterministic sampleData sampleData rfl

/-- Claim C7: under the data model's constraint that Flights is a count
(nonnegative), every per-group flight-count sum in the cancellation,
origin-state and destination-state/airline tables is at most the sum of the
Flights column over the whole year-filtered view. -/
theorem performance_sums_bounded (df : List Row) (h : ∀ r ∈ df, 0 ≤ r.flights) :
    (∀ p ∈ (performance df).barchart_data, p.2 ≤ (df.map Row.flights).sum) ∧
    (∀ p ∈ (performance df).mapchart_data, p.2 ≤ (df.map Row.flights).sum) ∧
    (∀ p ∈ (performance df).treemap_data, p.2 ≤ (df.map Row.flights).sum) :=
  ⟨fun _ hp => groupbySum_val_le h hp,
   fun _ hp => groupbySum_val_le h hp,
   fun _ hp => groupbySum_val_le h hp⟩

unseal Rat.add Rat.mul Rat.inv in
/-- Witness for C7: the (Month 1, code "A") cancellation count of
`sampleData` (1 flight) is at most the total flight count (3). -/
theorem performance_sums_bounded_witness :
    (1 : ℚ) ≤ (sampleData.map Row.flights).sum :=
  (performance_sums_bounded sampleData (by decide)).1 (((1 : Int), "A"), 1) (by decide)

/-- Claim C8: every mean-based aggregate value — mean AirTime in the
performance report and each mean delay-cause value in the delay report —
lies between the minimum and the maximum of the corresponding source column
restricted to that value's group. -/
theorem means_within_group_range (df : List Row) :
    (∀ p ∈ (performance df).linechart_data,
      listMin ((groupRows df (fun r => (r.month, r.reportingAirline)) p.1).map
        Row.airTime) ≤ p.2 ∧
      p.2 ≤ listMax ((groupRows df (fun r => (r.month, r.reportingAirline)) p.1).map
        Row.airTime)) ∧
    (∀ p ∈ (delays df).carrier,
      listMin ((groupRows df (fun r => (r.month, r.reportingAirline)) p.1).map
        Row.carrierDelay) ≤ p.2 ∧
      p.2 ≤ listMax ((groupRows df (fun r => (r.month, r.reportingAirline)) p.1).map
        Row.carrierDelay)) ∧
    (∀ p ∈ (delays df).weather,
      listMin ((groupRows df (fun r => (r.month, r.reportingAirline)) p.1).map
        Row.weatherDelay) ≤ p.2 ∧
      p.2 ≤ listMax ((groupRows df (fun r => (r.month, r.reportingAirline)) p.1).map
        Row.weatherDelay)) ∧
    (∀ p ∈ (delays df).NAS,
      listMin ((groupRows df (fun r => (r.month, r.reportingAirline)) p.1).map
        Row.nasDelay) ≤ p.2 ∧
      p.2 ≤ listMax ((groupRows df (fun r => (r.month, r.reportingAirline)) p.1).map
        Row.nasDelay)) ∧
    (∀ p ∈ (delays df).security,
      listMin ((groupRows df (fun r => (r.month, r.reportingAirline)) p.1).map
        Row.securityDelay) ≤ p.2 ∧
      p.2 ≤ listMax ((groupRows df (fun r => (r.month, r.reportingAirline)) p.1).map
        Row.securityDelay)) ∧
    (∀ p ∈ (delays df).delay,
      listMin ((groupRows df (fun r => (r.month, r.reportingAirline)) p.1).map
        Row.lateAircraftDelay) ≤ p.2 ∧
      p.2 ≤ listMax ((groupRows df (fun r => (r.month, r.reportingAirline)) p.1).map
        Row.lateAircraftDelay)) :=
  ⟨fun _ hp => groupbyMean_val_between hp,
   fun _ hp => groupbyMean_val_between hp,
   fun _ hp => groupbyMean_val_between hp,
   fun _ hp => groupbyMean_val_between hp,
   fun _ hp => groupbyMean_val_between hp,
   fun _ hp => groupbyMean_val_between hp⟩

unseal Rat.add Rat.mul Rat.inv in
/-- Witness for C8: the mean AirTime 75 of the (Month 1, airline "AA") group
of `sampleData` lies between that group's min (50) and max (100) AirTime. -/
theorem means_within_group_range_witness :
    listMin ((groupRows sampleData (fun r => (r.month, r.reportingAirline))
      ((1 : Int), "AA")).map Row.airTime) ≤ (75 : ℚ) ∧
    (75 : ℚ) ≤ listMax ((groupRows sampleData (fun r => (r.month, r.reportingAirline))
      ((1 : Int), "AA")).map Row.airTime) :=
  (means_within_group_range sampleData).1 (((1 : Int), "AA"), 75) (by decide)

/-- Claim C9: the callback's output does not depend on the prior chart
outputs passed as `State` arguments: two invocations with the same report
type, year and dataset but different prior-chart arguments return the same
five chart outputs. -/
theorem make_graph_ignores_prior_charts (chart : Option String) (year : Option Int)
    (fd : List Row) (a1 a2 a3 a4 a5 b1 b2 b3 b4 b5 : List Figure) :
    make_graph chart year a1 a2 a3 a4 a5 fd = make_graph chart year b1 b2 b3 b4 b5 fd :=
  rfl

/-- Claim C10: with a year selected, the callback produces the performance
report's five charts exactly when the report-type value is 'OPT1'; every
other report-type value — 'OPT2' or unset — produces the delay report's five
charts, with no separate "no report selected" outcome. -/
theorem make_graph_report_dispatch (fd : List Row) (y : Int) (chart : Option String)
    (a1 a2 a3 a4 a5 : List Figure) :
    (make_graph chart (some y) a1 a2 a3 a4 a5 fd =
      Except.ok (performanceCharts (yearFiltered fd y)) ↔ chart = some "OPT1") ∧
    (chart ≠ some "OPT1" →
      make_graph chart (some y) a1 a2 a3 a4 a5 fd =
        Except.ok (delayCharts (yearFiltered fd y))) := by
  constructor
  · constructor
    · intro h
      by_contra hne
      have hdel : make_graph chart (some y) a1 a2 a3 a4 a5 fd =
          Except.ok (delayCharts (yearFiltered fd y)) := by
        simp [make_graph, hne]
      rw [hdel] at h
      have h2 : delayCharts (yearFiltered fd y) = performanceCharts (yearFiltered fd y) := by
        injection h
      simp [performanceCharts, delayCharts] at h2
    · intro h
      simp [make_graph, h]
  · intro hne
    simp [make_graph, hne]

/-- Witness for C10: with year 2019 and report type 'OPT2', the callback
returns the delay charts. -/
theorem make_graph_report_dispatch_witness :
    make_graph (some "OPT2") (some 2019) [] [] [] [] [] sampleData =
      Except.ok (delayCharts (yearFiltered sampleData 2019)) :=
  (make_graph_report_dispatch sampleData 2019 (some "OPT2") [] [] [] [] []).2 (by decide)
